import Mathlib

/-!
# Shader program lifecycle (`cpp/shader/program.cpp`)

A shallow embedding of `openage::shader::Program`.  The object talks to three
things it does not define: the OpenGL driver, the heap (for the scratch text
buffers) and the logging sink.  All three are explicit here:

* every driver entry point the code calls is recorded, in order, in `Config.calls`;
* the values the driver hands back are read from an `Env`;
* every `log::imp` message is appended to `Config.sink`.

A C++ exception leaves the assignments made before the `throw` in place, so an
operation is a function from a configuration to an outcome *and* the
configuration reached.
-/

namespace openage
namespace shader

/-! ## OpenGL types and constants (from the GL headers) -/

abbrev GLuint := Nat
abbrev GLint := Int
abbrev GLenum := Nat

def GL_TRUE : GLint := 1
def GL_FRAGMENT_SHADER : GLenum := 0x8B30
def GL_VERTEX_SHADER : GLenum := 0x8B31
def GL_GEOMETRY_SHADER : GLenum := 0x8DD9
def GL_COMPILE_STATUS : GLenum := 0x8B81
def GL_LINK_STATUS : GLenum := 0x8B82
def GL_VALIDATE_STATUS : GLenum := 0x8B83
def GL_INFO_LOG_LENGTH : GLenum := 0x8B84
def GL_ACTIVE_ATTRIBUTES : GLenum := 0x8B89
def GL_ACTIVE_ATTRIBUTE_MAX_LENGTH : GLenum := 0x8B8A

/-- The fields of `Shader` that `Program` reads: `s->type` and `s->id`. -/
structure Shader where
  type : GLenum
  id : GLuint
deriving DecidableEq, Repr

/-- One driver entry point invoked by the code, with the arguments passed by value. -/
inductive Call where
  | glCreateProgram
  | glDeleteProgram (program : GLuint)
  | glAttachShader (program shader : GLuint)
  | glDetachShader (program shader : GLuint)
  | glLinkProgram (program : GLuint)
  | glValidateProgram (program : GLuint)
  | glGetProgramiv (program : GLuint) (pname : GLenum)
  | glGetProgramInfoLog (program : GLuint) (maxLength : Nat)
  | glUseProgram (program : GLuint)
  | glGetUniformLocation (program : GLuint) (name : String)
  | glGetAttribLocation (program : GLuint) (name : String)
  | glBindAttribLocation (program : GLuint) (index : GLuint) (name : String)
  | glGetActiveAttrib (program : GLuint) (index : Nat) (bufSize : Nat)
deriving DecidableEq, Repr

/-- What one active attribute looks like to `glGetActiveAttrib`. -/
structure ActiveAttrib where
  name : String
  size : GLint
  type : GLenum
deriving DecidableEq, Repr

/-- Everything the code reads from outside during one operation.  No operation of
`Program` issues the same query twice, so an answer is keyed by the query's
arguments.  Lengths and counts are natural numbers: the driver never reports a
negative one. -/
structure Env where
  /-- the handle returned by `glCreateProgram` -/
  createProgram : GLuint
  /-- answer of `glGetProgramiv` for a status `pname` -/
  status : GLuint → GLenum → GLint
  /-- answer of `glGetProgramiv(.., GL_INFO_LOG_LENGTH, ..)` -/
  infoLogLength : GLuint → Nat
  /-- the info log text the driver keeps for the program -/
  infoLog : GLuint → String
  /-- answer of `glGetProgramiv(.., GL_ACTIVE_ATTRIBUTES, ..)` -/
  activeAttributes : GLuint → Nat
  /-- answer of `glGetProgramiv(.., GL_ACTIVE_ATTRIBUTE_MAX_LENGTH, ..)` -/
  activeAttributeMaxLength : GLuint → Nat
  /-- the attribute `glGetActiveAttrib` describes at an index -/
  activeAttrib : GLuint → Nat → ActiveAttrib
  /-- answer of `glGetAttribLocation` -/
  attribLocation : GLuint → String → GLint
  /-- answer of `glGetUniformLocation` -/
  uniformLocation : GLuint → String → GLint
  /-- the characters a `%s` conversion picks up from a `new char[0]` array, which
  no driver call has written: whatever lies at that heap address up to the next
  NUL.  The argument numbers the allocations of one function. -/
  residue : Nat → String

/-- The value `glGetProgramiv` stores through its out-parameter. -/
def Env.getProgramiv (env : Env) (program : GLuint) (pname : GLenum) : GLint :=
  if pname = GL_INFO_LOG_LENGTH then (env.infoLogLength program : Int)
  else if pname = GL_ACTIVE_ATTRIBUTES then (env.activeAttributes program : Int)
  else if pname = GL_ACTIVE_ATTRIBUTE_MAX_LENGTH then (env.activeAttributeMaxLength program : Int)
  else env.status program pname

/-- The C string found in a `new char[bufSize]` array after the driver was asked to
store `text` in it: the driver writes at most `bufSize - 1` characters and a NUL,
and with `bufSize = 0` writes nothing at all.  Texts are C strings: one `Char` of
a `String` stands for one `char` (one byte), so lengths here are byte counts; text
outside the one-byte range has to be given byte by byte. -/
def Env.buffer (env : Env) (alloc : Nat) (bufSize : Nat) (text : String) : String :=
  if bufSize = 0 then env.residue alloc else String.mk (text.data.take (bufSize - 1))

/-! ## printf conversions -/

/-- The conversion `%u` applied to a 32-bit argument. -/
def fmt_u (v : Int) : String := toString (v % 2 ^ 32).toNat

/-- The conversion `%d` applied to a 32-bit argument. -/
def fmt_d (v : Int) : String :=
  let w := v % 2 ^ 32
  if w < 2 ^ 31 then toString w.toNat else "-" ++ toString (2 ^ 32 - w).toNat

end shader

namespace util

/-- Modelled from the spec: `util::Error` (util/error.h, not part of the sources at
hand) is the one error type thrown; it carries the message obtained by formatting
its arguments, in full. -/
structure Error where
  msg : String
deriving DecidableEq, Repr

end util

namespace shader

/-- The member variables of `Program`.  `pos_id` and `mvpm_id` have no initialiser
in the constructor; `none` stands for "never assigned". -/
structure Program where
  id : GLuint
  is_linked : Bool
  vert : Option Shader
  frag : Option Shader
  geom : Option Shader
  pos_id : Option GLint
  mvpm_id : Option GLint
deriving DecidableEq, Repr

/-- The program object together with the two observable effects of its methods. -/
structure Config where
  /-- the object `this` points to -/
  self : Program
  /-- the driver entry points invoked so far, oldest first -/
  calls : List Call
  /-- the messages handed to the logging sink so far, oldest first -/
  sink : List String
deriving DecidableEq, Repr

/-- How a method call ends. -/
inductive Outcome (α : Type) where
  | returned (value : α)
  | threw (e : util.Error)
deriving DecidableEq, Repr

/-- A method body: from the configuration before to the outcome and the
configuration after. -/
def M (α : Type) : Type := Config → Outcome α × Config

def M.pure {α : Type} (a : α) : M α := fun c => (Outcome.returned a, c)

def M.bind {α β : Type} (m : M α) (f : α → M β) : M β := fun c =>
  match m c with
  | (Outcome.returned a, c1) => f a c1
  | (Outcome.threw e, c1) => (Outcome.threw e, c1)

instance : Monad M where
  pure := M.pure
  bind := M.bind

/-- The statement `throw e`. -/
def throw_ {α : Type} (e : util.Error) : M α := fun c => (Outcome.threw e, c)

/-- Read `*this`. -/
def this_ : M Program := fun c => (Outcome.returned c.self, c)

/-- Assign to members of `*this`. -/
def assign (f : Program → Program) : M Unit := fun c =>
  (Outcome.returned (), { c with self := f c.self })

/-- Invoke a driver entry point. -/
def gl (call : Call) : M Unit := fun c =>
  (Outcome.returned (), { c with calls := c.calls ++ [call] })

namespace log

/-- Modelled from the spec: `log::imp` (log.h, not part of the sources at hand) is
the diagnostics sink, a single operation accepting a formatted message. -/
def imp (message : String) : M Unit := fun c =>
  (Outcome.returned (), { c with sink := c.sink ++ [message] })

end log

/-! ## The methods of `Program` -/

namespace Program

/-- Method `Program::Program()`. -/
def new (env : Env) (calls : List Call) (sink : List String) : Config :=
  { self := { id := env.createProgram, is_linked := false, vert := none, frag := none,
              geom := none, pos_id := none, mvpm_id := none },
    calls := calls ++ [Call.glCreateProgram],
    sink := sink }

/-- Method `Program::attach_shader`. -/
def attach_shader (s : Shader) : M Unit := do
  if s.type = GL_VERTEX_SHADER then
    assign fun p => { p with vert := some s }
  else if s.type = GL_FRAGMENT_SHADER then
    assign fun p => { p with frag := some s }
  else if s.type = GL_GEOMETRY_SHADER then
    assign fun p => { p with geom := some s }
  else
    pure ()
  let p ← this_
  gl (Call.glAttachShader p.id s.id)

/-- The assignment made by the `switch (s->type)` of `Program::attach_shader`, as a
function on the member variables. -/
def store (s : Shader) (p : Program) : Program :=
  if s.type = GL_VERTEX_SHADER then { p with vert := some s }
  else if s.type = GL_FRAGMENT_SHADER then { p with frag := some s }
  else if s.type = GL_GEOMETRY_SHADER then { p with geom := some s }
  else p

/-- Method `Program::Program(Shader *s0, Shader *s1)`. -/
def new2 (env : Env) (calls : List Call) (sink : List String) (s0 s1 : Shader) : Config :=
  let c0 := new env calls sink
  let c1 := (attach_shader s0 c0).2
  (attach_shader s1 c1).2

/-- Method `Program::~Program()`. -/
def delete : M Unit := do
  let p ← this_
  gl (Call.glDeleteProgram p.id)

/-- The `switch (what_to_check)` of `Program::check`. -/
def what_str (what_to_check : GLenum) : String :=
  if what_to_check = GL_LINK_STATUS then "linking"
  else if what_to_check = GL_VALIDATE_STATUS then "validation"
  else if what_to_check = GL_COMPILE_STATUS then "compiliation"
  else "<unknown task>"

/-- Method `Program::check`. -/
def check (env : Env) (what_to_check : GLenum) : M Unit := do
  let p ← this_
  gl (Call.glGetProgramiv p.id what_to_check)
  let status := env.getProgramiv p.id what_to_check
  if status ≠ GL_TRUE then
    gl (Call.glGetProgramiv p.id GL_INFO_LOG_LENGTH)
    let loglen := (env.getProgramiv p.id GL_INFO_LOG_LENGTH).toNat
    gl (Call.glGetProgramInfoLog p.id loglen)
    let infolog := env.buffer 0 loglen (env.infoLog p.id)
    throw_ ⟨"Program " ++ what_str what_to_check ++ " failed\n" ++ infolog⟩
  else
    pure ()

/-- Method `Program::use`. -/
def use : M Unit := do
  let p ← this_
  gl (Call.glUseProgram p.id)

/-- Method `Program::stopusing`. -/
def stopusing : M Unit :=
  gl (Call.glUseProgram 0)

/-- Method `Program::get_uniform_id`. -/
def get_uniform_id (env : Env) (name : String) : M GLint := do
  let p ← this_
  gl (Call.glGetUniformLocation p.id name)
  pure (env.uniformLocation p.id name)

/-- The message of one attribute line of `Program::dump_active_attributes`. -/
def attribute_line (env : Env) (program : GLuint) (attrib_max_length : Nat) (i : Nat) : String :=
  let a := env.activeAttrib program i
  "-> attribute " ++ env.buffer i attrib_max_length a.name ++ " : type=" ++ fmt_d a.type
    ++ ", size=" ++ fmt_u a.size

/-- The `for` loop of `Program::dump_active_attributes`, from index `i` with
`todo` iterations left. -/
def dump_loop (env : Env) (attrib_max_length : Nat) : Nat → Nat → M Unit
  | 0, _ => pure ()
  | todo + 1, i => do
    let p ← this_
    gl (Call.glGetActiveAttrib p.id i attrib_max_length)
    log.imp (attribute_line env p.id attrib_max_length i)
    dump_loop env attrib_max_length todo (i + 1)

/-- Method `Program::dump_active_attributes`. -/
def dump_active_attributes (env : Env) : M Unit := do
  log.imp "dumping shader program active attribute list:"
  let p ← this_
  gl (Call.glGetProgramiv p.id GL_ACTIVE_ATTRIBUTES)
  let num_attribs := (env.getProgramiv p.id GL_ACTIVE_ATTRIBUTES).toNat
  gl (Call.glGetProgramiv p.id GL_ACTIVE_ATTRIBUTE_MAX_LENGTH)
  let attrib_max_length := (env.getProgramiv p.id GL_ACTIVE_ATTRIBUTE_MAX_LENGTH).toNat
  dump_loop env attrib_max_length num_attribs 0

/-- Method `Program::get_attribute_id`. -/
def get_attribute_id (env : Env) (name : String) : M GLint := do
  let p ← this_
  if p.is_linked then
    gl (Call.glGetAttribLocation p.id name)
    let aid := env.attribLocation p.id name
    if aid = -1 then
      dump_active_attributes env
      throw_ ⟨"queried attribute '" ++ name ++ "' not found or not active (pwnt by the compiler)."⟩
    else
      pure aid
  else
    throw_ ⟨"queried attribute '" ++ name ++ "' id before program was linked."⟩

/-- Method `Program::set_attribute_id`. -/
def set_attribute_id (name : String) (id : GLuint) : M Unit := do
  let p ← this_
  if !p.is_linked then
    gl (Call.glBindAttribLocation p.id id name)
  else
    throw_ ⟨"assigned attribute '" ++ name ++ "' = " ++ fmt_u id ++ " after program was linked!"⟩

/-- Method `Program::post_link_hook`. -/
def post_link_hook (env : Env) : M Unit := do
  let a ← get_attribute_id env "vertex_position"
  assign fun p => { p with pos_id := some a }
  let u ← get_uniform_id env "mvp_matrix"
  assign fun p => { p with mvpm_id := some u }

/-- The three `if (... != nullptr) glDetachShader(...)` statements of `Program::link`. -/
def detach_if (id : GLuint) : Option Shader → M Unit
  | some s => gl (Call.glDetachShader id s.id)
  | none => pure ()

/-- The call made by one `if (... != nullptr) glDetachShader(...)` statement. -/
def handle_call (id : GLuint) : Option Shader → List Call
  | some s => [Call.glDetachShader id s.id]
  | none => []

/-- The `glDetachShader` calls made at the end of `Program::link`, in order. -/
def detach_calls (p : Program) : List Call :=
  handle_call p.id p.vert ++ handle_call p.id p.frag ++ handle_call p.id p.geom

/-- Method `Program::link`. -/
def link (env : Env) : M Unit := do
  let p ← this_
  gl (Call.glLinkProgram p.id)
  check env GL_LINK_STATUS
  gl (Call.glValidateProgram p.id)
  check env GL_VALIDATE_STATUS
  assign fun p => { p with is_linked := true }
  post_link_hook env
  let p ← this_
  detach_if p.id p.vert
  detach_if p.id p.frag
  detach_if p.id p.geom

end Program

/-! ## What the driver holds, as a function of the calls made -/

/-- The effect of one call on the list of shader handles attached to `program`:
`glAttachShader` adds a handle (once), `glDetachShader` removes it, and
`glDeleteProgram` drops them all. -/
def attachStep (program : GLuint) (attached : List GLuint) : Call → List GLuint
  | Call.glAttachShader p s => if p = program ∧ s ∉ attached then attached ++ [s] else attached
  | Call.glDetachShader p s => if p = program then attached.filter (fun x => x ≠ s) else attached
  | Call.glDeleteProgram p => if p = program then [] else attached
  | _ => attached

/-- The shader handles attached to `program` after the given calls. -/
def attachedShaders (program : GLuint) (calls : List Call) : List GLuint :=
  calls.foldl (attachStep program) []

/-- The effect of one call on the driver's active program. -/
def useStep (active : GLuint) : Call → GLuint
  | Call.glUseProgram p => p
  | _ => active

/-- The driver's active program after the given calls; `0` is "none". -/
def activeProgram (calls : List Call) : GLuint :=
  calls.foldl useStep 0

/-! ## Sequences of calls and views of the program -/

/-- The configuration after `attach_shader` was called for each stage of a list, in
order. -/
def attach_all (stages : List Shader) (c : Config) : Config :=
  stages.foldl (fun c s => (Program.attach_shader s c).2) c

/-- The stage the program references for a stage kind. -/
def slot (p : Program) (kind : GLenum) : Option Shader :=
  if kind = GL_VERTEX_SHADER then p.vert
  else if kind = GL_FRAGMENT_SHADER then p.frag
  else if kind = GL_GEOMETRY_SHADER then p.geom
  else none

/-- The driver handles of the stages the program references. -/
def refs (p : Program) : List GLuint :=
  (p.vert.toList ++ p.frag.toList ++ p.geom.toList).map Shader.id

/-! ## Concrete drivers and programs used to evaluate the code -/

/-- A driver that accepts the program: link and validate succeed, attribute
`vertex_position` sits at location 0, uniform `mvp_matrix` at location 3. -/
def acceptingEnv : Env :=
  { createProgram := 7
    status := fun _ _ => GL_TRUE
    infoLogLength := fun _ => 0
    infoLog := fun _ => ""
    activeAttributes := fun _ => 1
    activeAttributeMaxLength := fun _ => 16
    activeAttrib := fun _ _ => ⟨"vertex_position", 1, 0x8B52⟩
    attribLocation := fun _ name => if name = "vertex_position" then 0 else -1
    uniformLocation := fun _ name => if name = "mvp_matrix" then 3 else -1
    residue := fun _ => "" }

/-- A driver that accepts the program but in which `vertex_position` is not an
active attribute; the two active attributes are `color` and `uv`. -/
def noPositionEnv : Env :=
  { acceptingEnv with
    activeAttributes := fun _ => 2
    activeAttributeMaxLength := fun _ => 6
    activeAttrib := fun _ i => if i = 0 then ⟨"color", 1, 0x8B52⟩ else ⟨"uv", 1, 0x8B50⟩
    attribLocation := fun _ _ => -1 }

/-- A driver that rejects the program with an info log of ten characters. -/
def rejectingEnv : Env :=
  { acceptingEnv with
    status := fun _ _ => 0
    infoLogLength := fun _ => 11
    infoLog := fun _ => "error: bad" }

/-- A driver that rejects the program and has no info log: the log is empty and its
reported length is 0.  The heap holds the stale characters `xyz` where the
zero-length buffer is placed. -/
def silentEnv : Env :=
  { acceptingEnv with
    status := fun _ _ => 0
    infoLogLength := fun _ => 0
    infoLog := fun _ => ""
    residue := fun _ => "xyz" }

/-- A vertex stage. -/
def vertexA : Shader := ⟨GL_VERTEX_SHADER, 1⟩

/-- A second vertex stage. -/
def vertexB : Shader := ⟨GL_VERTEX_SHADER, 2⟩

/-- A fragment stage. -/
def fragmentA : Shader := ⟨GL_FRAGMENT_SHADER, 3⟩

/-- A stage of a kind `attach_shader` has no case for (`GL_COMPUTE_SHADER`). -/
def computeA : Shader := ⟨0x91B9, 4⟩

/-- A freshly constructed program on a driver with no history. -/
def freshConfig (env : Env) : Config := Program.new env [] []

/-- A program in the linked state. -/
def linkedConfig : Config :=
  { self := { id := 7, is_linked := true, vert := some vertexA, frag := some fragmentA,
              geom := none, pos_id := some 0, mvpm_id := some 3 },
    calls := [Call.glUseProgram 9],
    sink := [] }

/-! ## Unfolding the method bodies -/

theorem bind_apply {α β : Type} (m : M α) (f : α → M β) (c : Config) :
    (m >>= f) c = match m c with
      | (Outcome.returned a, c1) => f a c1
      | (Outcome.threw e, c1) => (Outcome.threw e, c1) := rfl

theorem pure_apply {α : Type} (a : α) (c : Config) :
    (pure a : M α) c = (Outcome.returned a, c) := rfl

namespace Program

theorem check_eq (env : Env) (what_to_check : GLenum) (c : Config) :
    check env what_to_check c =
      if env.getProgramiv c.self.id what_to_check = GL_TRUE then
        (Outcome.returned (),
          { c with calls := c.calls ++ [Call.glGetProgramiv c.self.id what_to_check] })
      else
        (Outcome.threw ⟨"Program " ++ what_str what_to_check ++ " failed\n"
            ++ env.buffer 0 (env.infoLogLength c.self.id) (env.infoLog c.self.id)⟩,
          { c with calls := c.calls ++ [Call.glGetProgramiv c.self.id what_to_check,
              Call.glGetProgramiv c.self.id GL_INFO_LOG_LENGTH,
              Call.glGetProgramInfoLog c.self.id (env.infoLogLength c.self.id)] }) := by
  by_cases h : env.getProgramiv c.self.id what_to_check = GL_TRUE
  · simp only [check, bind_apply, this_, gl, h, ne_eq, not_true_eq_false, if_false, if_true]
    rfl
  · simp only [check, bind_apply, this_, gl, h, ne_eq, not_false_eq_true, if_false, if_true,
      throw_]
    simp [Env.getProgramiv]

theorem getProgramiv_link (env : Env) (program : GLuint) :
    env.getProgramiv program GL_LINK_STATUS = env.status program GL_LINK_STATUS := by
  simp [Env.getProgramiv, GL_LINK_STATUS, GL_INFO_LOG_LENGTH, GL_ACTIVE_ATTRIBUTES,
    GL_ACTIVE_ATTRIBUTE_MAX_LENGTH]

theorem getProgramiv_validate (env : Env) (program : GLuint) :
    env.getProgramiv program GL_VALIDATE_STATUS = env.status program GL_VALIDATE_STATUS := by
  simp [Env.getProgramiv, GL_VALIDATE_STATUS, GL_INFO_LOG_LENGTH, GL_ACTIVE_ATTRIBUTES,
    GL_ACTIVE_ATTRIBUTE_MAX_LENGTH]

theorem getProgramiv_active (env : Env) (program : GLuint) :
    env.getProgramiv program GL_ACTIVE_ATTRIBUTES = (env.activeAttributes program : Int) := by
  simp [Env.getProgramiv, GL_INFO_LOG_LENGTH, GL_ACTIVE_ATTRIBUTES]

theorem getProgramiv_max_length (env : Env) (program : GLuint) :
    env.getProgramiv program GL_ACTIVE_ATTRIBUTE_MAX_LENGTH
      = (env.activeAttributeMaxLength program : Int) := by
  simp [Env.getProgramiv, GL_INFO_LOG_LENGTH, GL_ACTIVE_ATTRIBUTES,
    GL_ACTIVE_ATTRIBUTE_MAX_LENGTH]

theorem what_str_link : what_str GL_LINK_STATUS = "linking" := by decide

theorem what_str_validate : what_str GL_VALIDATE_STATUS = "validation" := by decide

theorem what_str_other (what_to_check : GLenum) (h1 : what_to_check ≠ GL_LINK_STATUS)
    (h2 : what_to_check ≠ GL_VALIDATE_STATUS) (h3 : what_to_check ≠ GL_COMPILE_STATUS) :
    what_str what_to_check = "<unknown task>" := by
  simp [what_str, h1, h2, h3]

theorem store_id (s : Shader) (p : Program) : (store s p).id = p.id := by
  unfold store; split_ifs <;> rfl

theorem store_is_linked (s : Shader) (p : Program) : (store s p).is_linked = p.is_linked := by
  unfold store; split_ifs <;> rfl

theorem attach_shader_eq (s : Shader) (c : Config) :
    attach_shader s c =
      (Outcome.returned (),
        { c with self := store s c.self,
                 calls := c.calls ++ [Call.glAttachShader c.self.id s.id] }) := by
  unfold attach_shader store
  by_cases h1 : s.type = GL_VERTEX_SHADER
  · rw [if_pos h1, if_pos h1]; rfl
  · rw [if_neg h1, if_neg h1]
    by_cases h2 : s.type = GL_FRAGMENT_SHADER
    · rw [if_pos h2, if_pos h2]; rfl
    · rw [if_neg h2, if_neg h2]
      by_cases h3 : s.type = GL_GEOMETRY_SHADER
      · rw [if_pos h3, if_pos h3]; rfl
      · rw [if_neg h3, if_neg h3]; rfl

theorem dump_loop_eq (env : Env) (len : Nat) (todo : Nat) :
    ∀ (i : Nat) (c : Config), dump_loop env len todo i c =
      (Outcome.returned (),
        { c with
          calls := c.calls ++
            (List.range todo).map (fun k => Call.glGetActiveAttrib c.self.id (i + k) len),
          sink := c.sink ++
            (List.range todo).map (fun k => attribute_line env c.self.id len (i + k)) }) := by
  induction todo with
  | zero => intro i c; simp [dump_loop, pure_apply]
  | succ n ih =>
    intro i c
    simp only [dump_loop, bind_apply, this_, gl, log.imp, ih]
    simp [List.range_succ_eq_map, Function.comp_def, Nat.add_assoc, Nat.add_comm 1]

theorem dump_active_attributes_eq (env : Env) (c : Config) :
    dump_active_attributes env c =
      (Outcome.returned (),
        { c with
          calls := c.calls ++
            [Call.glGetProgramiv c.self.id GL_ACTIVE_ATTRIBUTES,
             Call.glGetProgramiv c.self.id GL_ACTIVE_ATTRIBUTE_MAX_LENGTH] ++
            (List.range (env.activeAttributes c.self.id)).map (fun k =>
              Call.glGetActiveAttrib c.self.id k (env.activeAttributeMaxLength c.self.id)),
          sink := c.sink ++ "dumping shader program active attribute list:" ::
            (List.range (env.activeAttributes c.self.id)).map
              (attribute_line env c.self.id (env.activeAttributeMaxLength c.self.id)) }) := by
  simp [dump_active_attributes, bind_apply, this_, gl, log.imp, dump_loop_eq,
    getProgramiv_active, getProgramiv_max_length]

theorem get_attribute_id_unlinked (env : Env) (name : String) (c : Config)
    (h : c.self.is_linked = false) :
    get_attribute_id env name c =
      (Outcome.threw ⟨"queried attribute '" ++ name ++ "' id before program was linked."⟩, c) := by
  simp [get_attribute_id, bind_apply, this_, h, throw_]

theorem get_attribute_id_found (env : Env) (name : String) (c : Config)
    (h : c.self.is_linked = true) (ha : env.attribLocation c.self.id name ≠ -1) :
    get_attribute_id env name c =
      (Outcome.returned (env.attribLocation c.self.id name),
        { c with calls := c.calls ++ [Call.glGetAttribLocation c.self.id name] }) := by
  simp [get_attribute_id, bind_apply, pure_apply, this_, gl, h, ha]

theorem get_attribute_id_missing (env : Env) (name : String) (c : Config)
    (h : c.self.is_linked = true) (ha : env.attribLocation c.self.id name = -1) :
    get_attribute_id env name c =
      (Outcome.threw
          ⟨"queried attribute '" ++ name ++ "' not found or not active (pwnt by the compiler)."⟩,
        { c with
          calls := c.calls ++
            [Call.glGetAttribLocation c.self.id name,
             Call.glGetProgramiv c.self.id GL_ACTIVE_ATTRIBUTES,
             Call.glGetProgramiv c.self.id GL_ACTIVE_ATTRIBUTE_MAX_LENGTH] ++
            (List.range (env.activeAttributes c.self.id)).map (fun k =>
              Call.glGetActiveAttrib c.self.id k (env.activeAttributeMaxLength c.self.id)),
          sink := c.sink ++ "dumping shader program active attribute list:" ::
            (List.range (env.activeAttributes c.self.id)).map
              (attribute_line env c.self.id (env.activeAttributeMaxLength c.self.id)) }) := by
  simp [get_attribute_id, bind_apply, this_, gl, h, ha, throw_, dump_active_attributes_eq]

theorem set_attribute_id_eq (name : String) (id : GLuint) (c : Config) :
    set_attribute_id name id c =
      if c.self.is_linked = true then
        (Outcome.threw
            ⟨"assigned attribute '" ++ name ++ "' = " ++ fmt_u id ++ " after program was linked!"⟩,
          c)
      else
        (Outcome.returned (),
          { c with calls := c.calls ++ [Call.glBindAttribLocation c.self.id id name] }) := by
  cases h : c.self.is_linked <;> simp [set_attribute_id, bind_apply, this_, gl, h, throw_]

theorem link_of_link_failed (env : Env) (c : Config)
    (hl : env.status c.self.id GL_LINK_STATUS ≠ GL_TRUE) :
    link env c =
      (Outcome.threw ⟨"Program linking failed\n"
          ++ env.buffer 0 (env.infoLogLength c.self.id) (env.infoLog c.self.id)⟩,
        { c with calls := c.calls ++ [Call.glLinkProgram c.self.id,
            Call.glGetProgramiv c.self.id GL_LINK_STATUS,
            Call.glGetProgramiv c.self.id GL_INFO_LOG_LENGTH,
            Call.glGetProgramInfoLog c.self.id (env.infoLogLength c.self.id)] }) := by
  simp [link, bind_apply, this_, gl, check_eq, getProgramiv_link, hl, what_str_link]

/-- When the driver reports the length of its info log as the text plus the NUL, a
rejected link carries the log verbatim. -/
theorem link_reports_log (env : Env) (c : Config)
    (hl : env.status c.self.id GL_LINK_STATUS ≠ GL_TRUE)
    (hlen : env.infoLogLength c.self.id = (env.infoLog c.self.id).length + 1) :
    (link env c).1 = Outcome.threw ⟨"Program linking failed\n" ++ env.infoLog c.self.id⟩ := by
  rw [link_of_link_failed env c hl, hlen]
  have hb : env.buffer 0 ((env.infoLog c.self.id).length + 1) (env.infoLog c.self.id)
      = env.infoLog c.self.id := by
    unfold Env.buffer
    rw [if_neg (Nat.succ_ne_zero _), Nat.add_sub_cancel]
    show String.mk (List.take (env.infoLog c.self.id).data.length (env.infoLog c.self.id).data) = _
    rw [List.take_length]
  rw [hb]

theorem link_of_validate_failed (env : Env) (c : Config)
    (hl : env.status c.self.id GL_LINK_STATUS = GL_TRUE)
    (hv : env.status c.self.id GL_VALIDATE_STATUS ≠ GL_TRUE) :
    link env c =
      (Outcome.threw ⟨"Program validation failed\n"
          ++ env.buffer 0 (env.infoLogLength c.self.id) (env.infoLog c.self.id)⟩,
        { c with calls := c.calls ++ [Call.glLinkProgram c.self.id,
            Call.glGetProgramiv c.self.id GL_LINK_STATUS,
            Call.glValidateProgram c.self.id,
            Call.glGetProgramiv c.self.id GL_VALIDATE_STATUS,
            Call.glGetProgramiv c.self.id GL_INFO_LOG_LENGTH,
            Call.glGetProgramInfoLog c.self.id (env.infoLogLength c.self.id)] }) := by
  simp [link, bind_apply, this_, gl, check_eq, getProgramiv_link, getProgramiv_validate, hl, hv,
    what_str_validate]

theorem link_of_missing (env : Env) (c : Config)
    (hl : env.status c.self.id GL_LINK_STATUS = GL_TRUE)
    (hv : env.status c.self.id GL_VALIDATE_STATUS = GL_TRUE)
    (ha : env.attribLocation c.self.id "vertex_position" = -1) :
    link env c =
      (Outcome.threw
          ⟨"queried attribute 'vertex_position' not found or not active (pwnt by the compiler)."⟩,
        { self := { c.self with is_linked := true },
          calls := c.calls ++ [Call.glLinkProgram c.self.id,
            Call.glGetProgramiv c.self.id GL_LINK_STATUS,
            Call.glValidateProgram c.self.id,
            Call.glGetProgramiv c.self.id GL_VALIDATE_STATUS,
            Call.glGetAttribLocation c.self.id "vertex_position",
            Call.glGetProgramiv c.self.id GL_ACTIVE_ATTRIBUTES,
            Call.glGetProgramiv c.self.id GL_ACTIVE_ATTRIBUTE_MAX_LENGTH] ++
            (List.range (env.activeAttributes c.self.id)).map (fun k =>
              Call.glGetActiveAttrib c.self.id k (env.activeAttributeMaxLength c.self.id)),
          sink := c.sink ++ "dumping shader program active attribute list:" ::
            (List.range (env.activeAttributes c.self.id)).map
              (attribute_line env c.self.id (env.activeAttributeMaxLength c.self.id)) }) := by
  simp [link, bind_apply, this_, gl, assign, check_eq, getProgramiv_link, getProgramiv_validate,
    hl, hv, post_link_hook, get_attribute_id_missing, ha]

theorem link_of_found (env : Env) (c : Config)
    (hl : env.status c.self.id GL_LINK_STATUS = GL_TRUE)
    (hv : env.status c.self.id GL_VALIDATE_STATUS = GL_TRUE)
    (ha : env.attribLocation c.self.id "vertex_position" ≠ -1) :
    link env c =
      (Outcome.returned (),
        { self := { c.self with
            is_linked := true,
            pos_id := some (env.attribLocation c.self.id "vertex_position"),
            mvpm_id := some (env.uniformLocation c.self.id "mvp_matrix") },
          calls := c.calls ++ [Call.glLinkProgram c.self.id,
            Call.glGetProgramiv c.self.id GL_LINK_STATUS,
            Call.glValidateProgram c.self.id,
            Call.glGetProgramiv c.self.id GL_VALIDATE_STATUS,
            Call.glGetAttribLocation c.self.id "vertex_position",
            Call.glGetUniformLocation c.self.id "mvp_matrix"] ++
            detach_calls c.self,
          sink := c.sink }) := by
  simp [link, bind_apply, pure_apply, this_, gl, assign, check_eq, getProgramiv_link,
    getProgramiv_validate, hl, hv, post_link_hook, get_attribute_id_found, ha, get_uniform_id,
    detach_calls]
  cases c.self.vert <;> cases c.self.frag <;> cases c.self.geom <;>
    simp [detach_if, gl, pure_apply, bind_apply, handle_call]

end Program

/-! ## The driver's attachment list along the calls of the program -/

theorem attachedShaders_append (program : GLuint) (xs ys : List Call) :
    attachedShaders program (xs ++ ys) = ys.foldl (attachStep program) (attachedShaders program xs) := by
  simp [attachedShaders, List.foldl_append]

theorem foldl_handle_call (id : GLuint) (o : Option Shader) (acc : List GLuint) :
    (Program.handle_call id o).foldl (attachStep id) acc
      = acc.filter (fun x => decide (x ∉ (o.toList.map Shader.id))) := by
  cases o with
  | none => simp [Program.handle_call]
  | some s => simp [Program.handle_call, attachStep]

theorem foldl_detach_calls (p : Program) (acc : List GLuint) :
    (Program.detach_calls p).foldl (attachStep p.id) acc
      = acc.filter (fun x => decide (x ∉ refs p)) := by
  simp only [Program.detach_calls, List.foldl_append, foldl_handle_call, List.filter_filter, refs,
    List.map_append, List.mem_append, not_or]
  congr 1
  funext x
  simp only [Bool.decide_and, Bool.and_comm, Bool.and_assoc, Bool.and_left_comm]

/-- A successful `link` detaches the referenced stages and nothing else. -/
theorem link_attached (env : Env) (c : Config) (hok : (Program.link env c).1 = Outcome.returned ()) :
    attachedShaders c.self.id (Program.link env c).2.calls
      = (attachedShaders c.self.id c.calls).filter (fun x => decide (x ∉ refs c.self)) := by
  by_cases hl : env.status c.self.id GL_LINK_STATUS = GL_TRUE
  · by_cases hv : env.status c.self.id GL_VALIDATE_STATUS = GL_TRUE
    · by_cases ha : env.attribLocation c.self.id "vertex_position" = -1
      · rw [Program.link_of_missing env c hl hv ha] at hok; cases hok
      · rw [Program.link_of_found env c hl hv ha]
        simp only [attachedShaders_append, foldl_detach_calls]
        simp [attachStep]
    · rw [Program.link_of_validate_failed env c hl hv] at hok; cases hok
  · rw [Program.link_of_link_failed env c hl] at hok; cases hok

theorem attach_all_nil (c : Config) : attach_all [] c = c := rfl

theorem attach_all_concat (ss : List Shader) (s : Shader) (c : Config) :
    attach_all (ss ++ [s]) c = (Program.attach_shader s (attach_all ss c)).2 := by
  simp [attach_all, List.foldl_append]

theorem attach_all_id (ss : List Shader) (c : Config) : (attach_all ss c).self.id = c.self.id := by
  induction ss using List.reverseRecOn with
  | nil => rfl
  | append_singleton ss s ih => rw [attach_all_concat, Program.attach_shader_eq]; simp [Program.store_id, ih]

theorem attach_all_attached (ss : List Shader) (c : Config) (x : GLuint) :
    x ∈ attachedShaders c.self.id (attach_all ss c).calls
      ↔ x ∈ attachedShaders c.self.id c.calls ∨ x ∈ ss.map Shader.id := by
  induction ss using List.reverseRecOn with
  | nil => simp [attach_all_nil]
  | append_singleton ss s ih =>
    rw [attach_all_concat, Program.attach_shader_eq]
    simp only [attachedShaders_append, List.foldl_cons, List.foldl_nil, attachStep, attach_all_id,
      true_and]
    by_cases hs : s.id ∈ attachedShaders c.self.id (attach_all ss c).calls
    · simp only [hs, not_true_eq_false, if_false, ih, List.map_append, List.map_cons, List.map_nil,
        List.mem_append, List.mem_singleton]
      constructor
      · intro h; rcases h with h | h
        · exact Or.inl h
        · exact Or.inr (Or.inl h)
      · intro h; rcases h with h | h | h
        · exact Or.inl h
        · exact Or.inr h
        · subst h; exact ih.mp hs
    · simp only [hs, not_false_eq_true, if_true, List.mem_append, ih, List.map_append, List.map_cons,
        List.map_nil, List.mem_singleton, or_assoc]

theorem store_vert (s : Shader) (p : Program) :
    (Program.store s p).vert = if s.type = GL_VERTEX_SHADER then some s else p.vert := by
  unfold Program.store; split_ifs <;> rfl

theorem store_frag (s : Shader) (p : Program) :
    (Program.store s p).frag = if s.type = GL_FRAGMENT_SHADER then some s else p.frag := by
  unfold Program.store
  by_cases h : s.type = GL_FRAGMENT_SHADER
  · have h1 : s.type ≠ GL_VERTEX_SHADER := by rw [h]; decide
    rw [if_neg h1, if_pos h, if_pos h]
  · split_ifs <;> rfl

theorem store_geom (s : Shader) (p : Program) :
    (Program.store s p).geom = if s.type = GL_GEOMETRY_SHADER then some s else p.geom := by
  unfold Program.store
  by_cases h : s.type = GL_GEOMETRY_SHADER
  · have h1 : s.type ≠ GL_VERTEX_SHADER := by rw [h]; decide
    have h2 : s.type ≠ GL_FRAGMENT_SHADER := by rw [h]; decide
    rw [if_neg h1, if_neg h2, if_pos h, if_pos h]
  · split_ifs <;> rfl

theorem attach_two_self (s1 s2 : Shader) (c : Config) :
    (attach_all [s1, s2] c).self = Program.store s2 (Program.store s1 c.self) := by
  simp [attach_all, Program.attach_shader_eq]

/-- After a sequence of attaches the vertex reference is the last vertex stage of the sequence. -/
theorem attach_all_vert (ss : List Shader) (c : Config) :
    (attach_all ss c).self.vert
      = ((ss.filter (fun s => decide (s.type = GL_VERTEX_SHADER))).getLast?).or c.self.vert := by
  induction ss using List.reverseRecOn with
  | nil => simp [attach_all_nil]
  | append_singleton ss s ih =>
    rw [attach_all_concat, Program.attach_shader_eq]
    simp only [store_vert, ih, List.filter_append, List.getLast?_append]
    by_cases h : s.type = GL_VERTEX_SHADER <;> simp [h, List.filter]

theorem attach_all_frag (ss : List Shader) (c : Config) :
    (attach_all ss c).self.frag
      = ((ss.filter (fun s => decide (s.type = GL_FRAGMENT_SHADER))).getLast?).or c.self.frag := by
  induction ss using List.reverseRecOn with
  | nil => simp [attach_all_nil]
  | append_singleton ss s ih =>
    rw [attach_all_concat, Program.attach_shader_eq]
    simp only [store_frag, ih, List.filter_append, List.getLast?_append]
    by_cases h : s.type = GL_FRAGMENT_SHADER <;> simp [h, List.filter]

theorem attach_all_geom (ss : List Shader) (c : Config) :
    (attach_all ss c).self.geom
      = ((ss.filter (fun s => decide (s.type = GL_GEOMETRY_SHADER))).getLast?).or c.self.geom := by
  induction ss using List.reverseRecOn with
  | nil => simp [attach_all_nil]
  | append_singleton ss s ih =>
    rw [attach_all_concat, Program.attach_shader_eq]
    simp only [store_geom, ih, List.filter_append, List.getLast?_append]
    by_cases h : s.type = GL_GEOMETRY_SHADER <;> simp [h, List.filter]

open Program

/-! ## The claims -/

/-- C1: while the linked flag is false, `get_attribute_id` fails with the "queried
before program was linked" error for every name and every driver, and the
configuration it leaves is the one it found: no driver call was made and no member
changed. -/
theorem get_attribute_id_premature (env : Env) (name : String) (c : Config)
    (h : c.self.is_linked = false) :
    get_attribute_id env name c =
      (Outcome.threw ⟨"queried attribute '" ++ name ++ "' id before program was linked."⟩, c) :=
  get_attribute_id_unlinked env name c h

/-- Witness of C1: a fresh program on a driver that does know `vertex_position`. -/
theorem get_attribute_id_premature_witness :
    (freshConfig acceptingEnv).self.is_linked = false ∧
    acceptingEnv.attribLocation 7 "vertex_position" = 0 ∧
    get_attribute_id acceptingEnv "vertex_position" (freshConfig acceptingEnv) =
      (Outcome.threw ⟨"queried attribute 'vertex_position' id before program was linked."⟩,
        freshConfig acceptingEnv) :=
  ⟨rfl, by decide,
    get_attribute_id_premature acceptingEnv "vertex_position" (freshConfig acceptingEnv) rfl⟩

/-- C2: when the linked flag is true, `set_attribute_id` fails with the "after
program was linked" error carrying the name and the id and leaves the configuration
untouched (no bind-location request); when the flag is false it returns and the only
change is one `glBindAttribLocation` request for that id and name. -/
theorem set_attribute_id_contract (name : String) (id : GLuint) (c : Config) :
    set_attribute_id name id c =
      if c.self.is_linked = true then
        (Outcome.threw
            ⟨"assigned attribute '" ++ name ++ "' = " ++ fmt_u id ++ " after program was linked!"⟩,
          c)
      else
        (Outcome.returned (),
          { c with calls := c.calls ++ [Call.glBindAttribLocation c.self.id id name] }) :=
  set_attribute_id_eq name id c

/-- C3: on a driver that rejects the link and has no info log (length reported 0),
`link` allocates a zero-length buffer, the driver writes nothing into it, and the
error text after "Program linking failed" is whatever the heap holds there, not the
(empty) log. -/
theorem link_empty_log_reads_residue :
    silentEnv.status 7 GL_LINK_STATUS = 0 ∧
    silentEnv.infoLog 7 = "" ∧
    silentEnv.infoLogLength 7 = 0 ∧
    link silentEnv (freshConfig silentEnv) =
      (Outcome.threw ⟨"Program linking failed\nxyz"⟩,
        { freshConfig silentEnv with
          calls := [Call.glCreateProgram, Call.glLinkProgram 7,
            Call.glGetProgramiv 7 GL_LINK_STATUS, Call.glGetProgramiv 7 GL_INFO_LOG_LENGTH,
            Call.glGetProgramInfoLog 7 0] }) := by
  decide

/-- C4: for the compile-status phase the string `check` puts in the error is
"compiliation", a misspelling of "compilation"; the other phases get "linking",
"validation" and "<unknown task>". -/
theorem check_compile_phase_misspelt :
    what_str GL_COMPILE_STATUS = "compiliation" ∧
    what_str GL_LINK_STATUS = "linking" ∧
    what_str GL_VALIDATE_STATUS = "validation" ∧
    what_str 0 = "<unknown task>" ∧
    (check rejectingEnv GL_COMPILE_STATUS (freshConfig rejectingEnv)).1 =
      Outcome.threw ⟨"Program compiliation failed\nerror: bad"⟩ := by
  decide

/-- C5, as stated, fails: a fresh (unlinked) program on a driver that accepts the
link but does not know `vertex_position`; `link` throws from the post-link hook and
the linked flag is true afterwards. -/
theorem link_hook_failure_keeps_flag :
    (freshConfig noPositionEnv).self.is_linked = false ∧
    (link noPositionEnv (freshConfig noPositionEnv)).1 =
      Outcome.threw
        ⟨"queried attribute 'vertex_position' not found or not active (pwnt by the compiler)."⟩ ∧
    (link noPositionEnv (freshConfig noPositionEnv)).2.self.is_linked = true := by
  have h := link_of_missing noPositionEnv (freshConfig noPositionEnv) (by decide) (by decide)
    (by decide)
  exact ⟨rfl, by rw [h], by rw [h]⟩

/-- C5, amended: for a program that starts unlinked, a `link` that fails at the link
or at the validate status check leaves the linked flag false; once both checks have
passed the flag is true, whether `link` then returns or fails in the post-link hook;
in particular the flag is true after every `link` that returned without error. -/
theorem link_flag_after (env : Env) (c : Config) (h : c.self.is_linked = false) :
    ((env.status c.self.id GL_LINK_STATUS ≠ GL_TRUE ∨
        env.status c.self.id GL_VALIDATE_STATUS ≠ GL_TRUE) →
      (∃ e, (link env c).1 = Outcome.threw e) ∧ (link env c).2.self.is_linked = false) ∧
    ((env.status c.self.id GL_LINK_STATUS = GL_TRUE ∧
        env.status c.self.id GL_VALIDATE_STATUS = GL_TRUE) →
      (link env c).2.self.is_linked = true) ∧
    ((link env c).1 = Outcome.returned () → (link env c).2.self.is_linked = true) := by
  by_cases hl : env.status c.self.id GL_LINK_STATUS = GL_TRUE
  · by_cases hv : env.status c.self.id GL_VALIDATE_STATUS = GL_TRUE
    · have key : (link env c).2.self.is_linked = true := by
        by_cases ha : env.attribLocation c.self.id "vertex_position" = -1
        · rw [link_of_missing env c hl hv ha]
        · rw [link_of_found env c hl hv ha]
      exact ⟨fun hor => by rcases hor with h1 | h1 <;> contradiction, fun _ => key, fun _ => key⟩
    · rw [link_of_validate_failed env c hl hv]
      exact ⟨fun _ => ⟨⟨_, rfl⟩, h⟩, fun hh => absurd hh.2 hv, fun hh => by cases hh⟩
  · rw [link_of_link_failed env c hl]
    exact ⟨fun _ => ⟨⟨_, rfl⟩, h⟩, fun hh => absurd hh.1 hl, fun hh => by cases hh⟩

/-- Witness of C5, amended: a fresh program on a driver that rejects the link. -/
theorem link_flag_after_witness :
    (freshConfig rejectingEnv).self.is_linked = false ∧
    (∃ e, (link rejectingEnv (freshConfig rejectingEnv)).1 = Outcome.threw e) ∧
    (link rejectingEnv (freshConfig rejectingEnv)).2.self.is_linked = false :=
  ⟨rfl, (link_flag_after rejectingEnv (freshConfig rejectingEnv) rfl).1 (Or.inl (by decide))⟩

/-- C6: a program built by the two-stage constructor from a vertex and a fragment
stage, on a driver that reports link and validate success, a location `a` other than
-1 for attribute `vertex_position` and a location `u` (any value, -1 included) for
uniform `mvp_matrix`: `link` returns without error, the linked flag is true, the
cached position location is `a` and the cached MVP location is `u`; the two stages
are still the ones referenced. -/
theorem link_resolves_locations (env : Env) (calls : List Call) (sink : List String)
    (s0 s1 : Shader) (a u : GLint)
    (h0 : s0.type = GL_VERTEX_SHADER) (h1 : s1.type = GL_FRAGMENT_SHADER)
    (hl : env.status env.createProgram GL_LINK_STATUS = GL_TRUE)
    (hv : env.status env.createProgram GL_VALIDATE_STATUS = GL_TRUE)
    (ha : env.attribLocation env.createProgram "vertex_position" = a) (hne : a ≠ -1)
    (hu : env.uniformLocation env.createProgram "mvp_matrix" = u) :
    (link env (new2 env calls sink s0 s1)).1 = Outcome.returned () ∧
    (link env (new2 env calls sink s0 s1)).2.self.is_linked = true ∧
    (link env (new2 env calls sink s0 s1)).2.self.pos_id = some a ∧
    (link env (new2 env calls sink s0 s1)).2.self.mvpm_id = some u ∧
    (link env (new2 env calls sink s0 s1)).2.self.vert = some s0 ∧
    (link env (new2 env calls sink s0 s1)).2.self.frag = some s1 := by
  have hid : (new2 env calls sink s0 s1).self.id = env.createProgram := by
    simp [new2, attach_shader_eq, new, store_id]
  have hne1 : GL_FRAGMENT_SHADER ≠ GL_VERTEX_SHADER := by decide
  have hvert : (new2 env calls sink s0 s1).self.vert = some s0 := by
    simp [new2, attach_shader_eq, new, store, h0, h1, hne1]
  have hfrag : (new2 env calls sink s0 s1).self.frag = some s1 := by
    simp [new2, attach_shader_eq, new, store, h0, h1, hne1]
  rw [link_of_found env _ (by rw [hid]; exact hl) (by rw [hid]; exact hv)
    (by rw [hid, ha]; exact hne)]
  simp [hid, ha, hu, hvert, hfrag]

/-- Witness of C6: a vertex and a fragment stage on the accepting driver. -/
theorem link_resolves_locations_witness :
    (link acceptingEnv (new2 acceptingEnv [] [] vertexA fragmentA)).1 = Outcome.returned () ∧
    (link acceptingEnv (new2 acceptingEnv [] [] vertexA fragmentA)).2.self.is_linked = true ∧
    (link acceptingEnv (new2 acceptingEnv [] [] vertexA fragmentA)).2.self.pos_id = some 0 ∧
    (link acceptingEnv (new2 acceptingEnv [] [] vertexA fragmentA)).2.self.mvpm_id = some 3 ∧
    (link acceptingEnv (new2 acceptingEnv [] [] vertexA fragmentA)).2.self.vert = some vertexA ∧
    (link acceptingEnv (new2 acceptingEnv [] [] vertexA fragmentA)).2.self.frag
      = some fragmentA :=
  link_resolves_locations acceptingEnv [] [] vertexA fragmentA 0 3 rfl rfl (by decide)
    (by decide) (by decide) (by decide) (by decide)

/-- C7: on a driver that reports link and validate success but answers -1 for
`vertex_position`, `link` fails with the attribute-not-found error naming
`vertex_position`, and what it has added to the diagnostics sink is exactly one
dump: the header line followed by one line for each of the `n` active attributes the
driver reports, `n + 1` lines in all. -/
theorem link_missing_position_dumps (env : Env) (c : Config) (n : Nat)
    (hl : env.status c.self.id GL_LINK_STATUS = GL_TRUE)
    (hv : env.status c.self.id GL_VALIDATE_STATUS = GL_TRUE)
    (ha : env.attribLocation c.self.id "vertex_position" = -1)
    (hn : env.activeAttributes c.self.id = n) :
    (link env c).1 =
      Outcome.threw
        ⟨"queried attribute 'vertex_position' not found or not active (pwnt by the compiler)."⟩ ∧
    (link env c).2.sink =
      c.sink ++ "dumping shader program active attribute list:" ::
        (List.range n).map
          (attribute_line env c.self.id (env.activeAttributeMaxLength c.self.id)) ∧
    (link env c).2.sink.length = c.sink.length + (n + 1) := by
  rw [link_of_missing env c hl hv ha]
  simp [hn]

/-- Witness of C7: a fresh program on the driver without `vertex_position`, which
reports two active attributes. -/
theorem link_missing_position_dumps_witness :
    (link noPositionEnv (freshConfig noPositionEnv)).1 =
      Outcome.threw
        ⟨"queried attribute 'vertex_position' not found or not active (pwnt by the compiler)."⟩ ∧
    (link noPositionEnv (freshConfig noPositionEnv)).2.sink =
      [] ++ "dumping shader program active attribute list:" ::
        (List.range 2).map (attribute_line noPositionEnv 7 6) ∧
    (link noPositionEnv (freshConfig noPositionEnv)).2.sink.length = 0 + (2 + 1) :=
  link_missing_position_dumps noPositionEnv (freshConfig noPositionEnv) 2 (by decide)
    (by decide) (by decide) (by decide)

/-- C9: for a linked program and whatever program was active before, `use` makes
this program's handle the driver's active program, `use` followed by `stopusing`
leaves the active program at 0 (none), both return normally, and neither changes a
member of the program. -/
theorem use_then_stopusing (c : Config) (h : c.self.is_linked = true) :
    (use c).1 = Outcome.returned () ∧
    activeProgram (use c).2.calls = c.self.id ∧
    (use c).2.self = c.self ∧
    (stopusing (use c).2).1 = Outcome.returned () ∧
    activeProgram (stopusing (use c).2).2.calls = 0 ∧
    (stopusing (use c).2).2.self = c.self ∧
    (use c).2.self.is_linked = true := by
  simp [use, stopusing, bind_apply, this_, gl, activeProgram, List.foldl_append, useStep, h]

/-- Witness of C9: a linked program while program 9 is the active one. -/
theorem use_then_stopusing_witness :
    activeProgram linkedConfig.calls = 9 ∧
    activeProgram (use linkedConfig).2.calls = 7 ∧
    activeProgram (stopusing (use linkedConfig).2).2.calls = 0 ∧
    (stopusing (use linkedConfig).2).2.self = linkedConfig.self :=
  ⟨by decide, (use_then_stopusing linkedConfig rfl).2.1,
    (use_then_stopusing linkedConfig rfl).2.2.2.2.1,
    (use_then_stopusing linkedConfig rfl).2.2.2.2.2.1⟩

/-- C8: for each kind (vertex, fragment, geometry) and every two stages `s1`, `s2` of
that kind, after `attach_shader s1` then `attach_shader s2` on a fresh program only
`s2` is attached to the program: the reference for that kind is `s2`, the references
for the other kinds are unchanged (still none), the handles the program references
are just that of `s2`, and no reference holds `s1` (a stage other than `s2`). -/
theorem attach_twice_same_kind (env : Env) (calls : List Call) (sink : List String)
    (kind : GLenum) (s1 s2 : Shader)
    (hk : kind = GL_VERTEX_SHADER ∨ kind = GL_FRAGMENT_SHADER ∨ kind = GL_GEOMETRY_SHADER)
    (h1 : s1.type = kind) (h2 : s2.type = kind) :
    slot (attach_all [s1, s2] (new env calls sink)).self kind = some s2 ∧
    (∀ k, k ≠ kind →
      slot (attach_all [s1, s2] (new env calls sink)).self k = slot (new env calls sink).self k ∧
      slot (attach_all [s1, s2] (new env calls sink)).self k = none) ∧
    refs (attach_all [s1, s2] (new env calls sink)).self = [s2.id] ∧
    (s1 ≠ s2 → ∀ k, slot (attach_all [s1, s2] (new env calls sink)).self k ≠ some s1) := by
  have hvf : GL_VERTEX_SHADER ≠ GL_FRAGMENT_SHADER := by decide
  have hvg : GL_VERTEX_SHADER ≠ GL_GEOMETRY_SHADER := by decide
  have hfg : GL_FRAGMENT_SHADER ≠ GL_GEOMETRY_SHADER := by decide
  have pv : (attach_all [s1, s2] (new env calls sink)).self.vert
      = if kind = GL_VERTEX_SHADER then some s2 else none := by
    rw [attach_two_self, store_vert, store_vert, h1, h2]; split_ifs <;> rfl
  have pf : (attach_all [s1, s2] (new env calls sink)).self.frag
      = if kind = GL_FRAGMENT_SHADER then some s2 else none := by
    rw [attach_two_self, store_frag, store_frag, h1, h2]; split_ifs <;> rfl
  have pg : (attach_all [s1, s2] (new env calls sink)).self.geom
      = if kind = GL_GEOMETRY_SHADER then some s2 else none := by
    rw [attach_two_self, store_geom, store_geom, h1, h2]; split_ifs <;> rfl
  have p0 : ∀ k, slot (new env calls sink).self k = none := by
    intro k; unfold slot; split_ifs <;> rfl
  refine ⟨?_, ?_, ?_, ?_⟩
  · simp only [slot, pv, pf, pg]
    rcases hk with hk | hk | hk <;> subst hk <;> simp [hvf.symm, hvg.symm, hfg.symm]
  · intro k hkne
    rw [p0]
    simp only [slot, pv, pf, pg]
    split_ifs <;> simp_all
  · simp only [refs, pv, pf, pg]
    rcases hk with hk | hk | hk <;> subst hk <;> simp [hvf, hvg, hfg, hvf.symm, hvg.symm, hfg.symm]
  · intro hne k
    simp only [slot, pv, pf, pg]
    split_ifs <;> simp [Ne.symm hne]

/-- Witness of C8: two vertex stages on a fresh program. -/
theorem attach_twice_same_kind_witness :
    slot (attach_all [vertexA, vertexB] (new acceptingEnv [] [])).self GL_VERTEX_SHADER
      = some vertexB ∧
    refs (attach_all [vertexA, vertexB] (new acceptingEnv [] [])).self = [vertexB.id] ∧
    (∀ k, slot (attach_all [vertexA, vertexB] (new acceptingEnv [] [])).self k
      ≠ some vertexA) :=
  ⟨(attach_twice_same_kind acceptingEnv [] [] GL_VERTEX_SHADER vertexA vertexB (Or.inl rfl) rfl
      rfl).1,
    (attach_twice_same_kind acceptingEnv [] [] GL_VERTEX_SHADER vertexA vertexB (Or.inl rfl) rfl
      rfl).2.2.1,
    (attach_twice_same_kind acceptingEnv [] [] GL_VERTEX_SHADER vertexA vertexB (Or.inl rfl) rfl
      rfl).2.2.2 (by decide)⟩

/-- C10, as stated, fails: after two vertex stages were attached and `link` returned
without error the first one (handle 1) is still attached at the driver; so is a
stage of an unhandled kind (handle 4) attached on its own. -/
theorem link_leaves_stages_attached :
    (link acceptingEnv (attach_all [vertexA, vertexB] (freshConfig acceptingEnv))).1
      = Outcome.returned () ∧
    attachedShaders 7
      (link acceptingEnv (attach_all [vertexA, vertexB] (freshConfig acceptingEnv))).2.calls
      = [1] ∧
    (link acceptingEnv (attach_all [computeA] (freshConfig acceptingEnv))).1
      = Outcome.returned () ∧
    attachedShaders 7
      (link acceptingEnv (attach_all [computeA] (freshConfig acceptingEnv))).2.calls
      = [4] := by
  have h1 := link_of_found acceptingEnv (attach_all [vertexA, vertexB] (freshConfig acceptingEnv))
    (by decide) (by decide) (by decide)
  have h2 := link_of_found acceptingEnv (attach_all [computeA] (freshConfig acceptingEnv))
    (by decide) (by decide) (by decide)
  rw [h1, h2]
  exact ⟨rfl, by decide, rfl, by decide⟩

/-- C10, amended: when `link` returns without error on a fresh program to which the
stages `ss` were attached in order, the stages it references are the last vertex,
the last fragment and the last geometry stage of `ss`, and a handle is still attached
at the driver exactly when it was attached and is not the handle of a referenced
stage; the driver's list is empty exactly when every attached stage has the handle
of a referenced one. -/
theorem link_detaches_referenced (env : Env) (calls : List Call) (sink : List String)
    (ss : List Shader)
    (hfresh : attachedShaders env.createProgram calls = [])
    (hok : (link env (attach_all ss (new env calls sink))).1 = Outcome.returned ()) :
    (attach_all ss (new env calls sink)).self.vert
      = (ss.filter (fun s => decide (s.type = GL_VERTEX_SHADER))).getLast? ∧
    (attach_all ss (new env calls sink)).self.frag
      = (ss.filter (fun s => decide (s.type = GL_FRAGMENT_SHADER))).getLast? ∧
    (attach_all ss (new env calls sink)).self.geom
      = (ss.filter (fun s => decide (s.type = GL_GEOMETRY_SHADER))).getLast? ∧
    (∀ x, x ∈ attachedShaders env.createProgram
        (link env (attach_all ss (new env calls sink))).2.calls
      ↔ x ∈ ss.map Shader.id ∧ x ∉ refs (attach_all ss (new env calls sink)).self) ∧
    (attachedShaders env.createProgram (link env (attach_all ss (new env calls sink))).2.calls = []
      ↔ ∀ s ∈ ss, s.id ∈ refs (attach_all ss (new env calls sink)).self) := by
  have hid : (attach_all ss (new env calls sink)).self.id = env.createProgram := by
    rw [attach_all_id]; rfl
  have hcalls : attachedShaders env.createProgram (new env calls sink).calls = [] := by
    simp [new, attachedShaders_append, hfresh, attachStep]
  have hmem : ∀ x, x ∈ attachedShaders env.createProgram
      (link env (attach_all ss (new env calls sink))).2.calls
      ↔ x ∈ ss.map Shader.id ∧ x ∉ refs (attach_all ss (new env calls sink)).self := by
    intro x
    have h := link_attached env (attach_all ss (new env calls sink)) hok
    rw [hid] at h
    rw [h, List.mem_filter]
    have h2 := attach_all_attached ss (new env calls sink) x
    simp only [show (new env calls sink).self.id = env.createProgram from rfl, hcalls] at h2
    simp only [h2, List.not_mem_nil, false_or, decide_eq_true_eq]
  refine ⟨by simp [attach_all_vert, new], by simp [attach_all_frag, new],
    by simp [attach_all_geom, new], hmem, ?_⟩
  rw [List.eq_nil_iff_forall_not_mem]
  constructor
  · intro h s hs
    by_contra hne
    exact h s.id ((hmem s.id).mpr ⟨List.mem_map_of_mem _ hs, hne⟩)
  · intro h x hx
    obtain ⟨hx1, hx2⟩ := (hmem x).mp hx
    obtain ⟨s, hs, rfl⟩ := List.mem_map.mp hx1
    exact hx2 (h s hs)

/-- Witness of C10, amended: one vertex and one fragment stage; after `link` nothing
is attached. -/
theorem link_detaches_referenced_witness :
    (link acceptingEnv (attach_all [vertexA, fragmentA] (new acceptingEnv [] []))).1
      = Outcome.returned () ∧
    attachedShaders 7
      (link acceptingEnv (attach_all [vertexA, fragmentA] (new acceptingEnv [] []))).2.calls
      = [] := by
  have hok : (link acceptingEnv (attach_all [vertexA, fragmentA] (new acceptingEnv [] []))).1
      = Outcome.returned () := by
    rw [link_of_found acceptingEnv _ (by decide) (by decide) (by decide)]
  exact ⟨hok, (link_detaches_referenced acceptingEnv [] [] [vertexA, fragmentA] rfl hok).2.2.2.2.mpr
    (by decide)⟩

end shader
end openage
